import Mathlib

/-!
Verification development for the fleet-management ledger application
(`src/app.py`).  The two persistent tables (Trips, Fuel Logs) are shallowly
embedded as Lean lists of records; object-typed (pandas `object`) columns
become `Option String` (missing cell / NaN is `none`), numeric (`float64`)
columns become `Option ℚ` (NaN is `none`), and timestamp-valued string
columns become `Option Nat` holding the result of `pd.to_datetime(...,
errors="coerce")` (an unparseable or empty cell is `none`, i.e. NaT).
Comparisons against a pandas scalar (`==`, `<`, `<=`) are false whenever a
missing value is involved, which the `Option`-aware helpers below reproduce.

The three mutating submit handlers (Start Trip, End Trip, Log Refuel) are
embedded as pure functions from the loaded tables and the (already
generated) identifiers, photo blob references, and clock reading to either
a business-rule error or the updated table, exactly following the
validation order of the source.  Serial executions of the application are
the reflexive-transitive closure of a step relation that applies a
successful handler to the state.
-/

namespace FleetApp

/-! ### Python `str.strip`

The Streamlit forms call `.strip()` on the text inputs; the gate-pass
uniqueness check additionally calls `.str.strip()` on the stored column.
`pyStrip` models Python `str.strip()`: it removes leading and trailing
whitespace. -/

def stripData (l : List Char) : List Char :=
  ((l.dropWhile Char.isWhitespace).reverse.dropWhile Char.isWhitespace).reverse

def pyStrip (s : String) : String :=
  String.mk (stripData s.data)

/-! ### Ledger store: `load_csv_with_schema` (`src/app.py` lines 204-224)

A raw backing CSV is a header (list of column names) plus rows of
optional string cells (`none` = empty cell, read as NaN under
`dtype="object"`).  Loading coerces every canonical column: a column
absent from the stored data is added as null, numeric columns go through
`pd.to_numeric(errors="coerce")` (modelled by `parseNum`: parse failures
become null, never an error), object columns keep their string value, and
the result keeps the canonical column order. -/

structure RawTable where
  cols : List String
  rows : List (List (Option String))
deriving DecidableEq

inductive Cell where
  | null : Cell
  | str : String → Cell
  | num : ℚ → Cell
deriving DecidableEq

structure Table where
  cols : List String
  rows : List (List Cell)
deriving DecidableEq

def colIndex (cols : List String) (c : String) : Option Nat :=
  match cols with
  | [] => none
  | a :: rest => if a = c then some 0 else (colIndex rest c).map (· + 1)

def rawCell (cols : List String) (row : List (Option String)) (c : String) : Option String :=
  match colIndex cols c with
  | some i => (row.get? i).getD none
  | none => none

def digitsVal (l : List Char) : Nat :=
  l.foldl (fun n c => 10 * n + (c.toNat - 48)) 0

/-- Model of the lenient numeric parser behind `pd.to_numeric(...,
errors="coerce")` on decimal literals: optional sign, digits, optional
fractional part; anything else fails (and the cell degrades to null). -/
def parseNum (s : String) : Option ℚ :=
  let parseUnsigned : List Char → Option ℚ := fun cs =>
    match cs.span Char.isDigit with
    | (intPart, rest) =>
      match rest with
      | [] => if intPart = [] then none else some (digitsVal intPart)
      | '.' :: fracPart =>
        if fracPart.all Char.isDigit ∧ ¬(intPart = [] ∧ fracPart = []) then
          some ((digitsVal intPart : ℚ) + (digitsVal fracPart : ℚ) / (10 ^ fracPart.length))
        else none
      | _ => none
  match s.data with
  | '-' :: cs => (parseUnsigned cs).map (fun q => -q)
  | '+' :: cs => parseUnsigned cs
  | cs => parseUnsigned cs

/-- One coerced cell of the loaded table: look the canonical column up in
the stored header (absent column: null), then apply the dtype coercion
from the schema's dtype map (`float64` columns via `parseNum`, `object`
columns kept as strings). -/
def coerceCell (rawCols : List String) (row : List (Option String))
    (numericCols : List String) (c : String) : Cell :=
  match rawCell rawCols row c with
  | none => Cell.null
  | some s =>
    if c ∈ numericCols then
      match parseNum s with
      | some q => Cell.num q
      | none => Cell.null
    else Cell.str s

/-- `load_csv_with_schema(path, columns, dtypes_map)`: a missing backing
file (`none`) is not an error, it yields (and persists) an empty table
with the canonical column set; otherwise every record is coerced to the
canonical columns in canonical order. -/
def load_csv_with_schema (file : Option RawTable) (columns : List String)
    (numericCols : List String) : Table :=
  match file with
  | none => { cols := columns, rows := [] }
  | some raw =>
    { cols := columns
      rows := raw.rows.map fun row => columns.map fun c => coerceCell raw.cols row numericCols c }

/-- Canonical Trip column set (`TRIP_COLUMNS`). -/
def TRIP_COLUMNS : List String :=
  ["TripID", "VehicleReg", "Driver", "DriverContact", "VehicleType",
   "StartDateTime", "EndDateTime",
   "Origin", "Destination", "Purpose", "PurposeCategory",
   "GatePassNumber",
   "StartMileage", "StartMileagePhoto", "EndMileage", "EndMileagePhoto",
   "DistanceKM",
   "DailyAllowance", "OffloadingPay", "LoaderAllowance",
   "SecurityFee", "ParkingFee", "NightOutAllowance",
   "Status"]

/-- The `float64` columns of `TRIP_DTYPES`. -/
def TRIP_NUMERIC : List String :=
  ["StartMileage", "EndMileage", "DistanceKM", "DailyAllowance", "OffloadingPay",
   "LoaderAllowance", "SecurityFee", "ParkingFee", "NightOutAllowance"]

/-- Canonical Fuel Log column set (`FUEL_COLUMNS`). -/
def FUEL_COLUMNS : List String :=
  ["FuelID", "VehicleReg", "Driver", "DateTime", "Litres", "Cost",
   "MileagePhoto", "ReceiptPhoto", "DistanceSinceLastRefuelKM", "EfficiencyKMperL"]

/-- The `float64` columns of `FUEL_DTYPES`. -/
def FUEL_NUMERIC : List String :=
  ["Litres", "Cost", "DistanceSinceLastRefuelKM", "EfficiencyKMperL"]

/-! ### Data model -/

/-- One Trip record (one row of `trips.csv` after schema coercion). -/
structure Trip where
  tripID : Option String
  vehicleReg : Option String
  driver : Option String
  driverContact : Option String
  vehicleType : Option String
  startDateTime : Option Nat
  endDateTime : Option Nat
  origin : Option String
  destination : Option String
  purpose : Option String
  purposeCategory : Option String
  gatePassNumber : Option String
  startMileage : Option ℚ
  startMileagePhoto : Option String
  endMileage : Option ℚ
  endMileagePhoto : Option String
  distanceKM : Option ℚ
  dailyAllowance : Option ℚ
  offloadingPay : Option ℚ
  loaderAllowance : Option ℚ
  securityFee : Option ℚ
  parkingFee : Option ℚ
  nightOutAllowance : Option ℚ
  status : Option String
deriving DecidableEq

/-- One Fuel Log record (one row of `fuel_logs.csv` after schema coercion). -/
structure FuelEntry where
  fuelID : Option String
  vehicleReg : Option String
  driver : Option String
  dateTime : Option Nat
  litres : Option ℚ
  cost : Option ℚ
  mileagePhoto : Option String
  receiptPhoto : Option String
  distanceSinceLastRefuelKM : Option ℚ
  efficiencyKMperL : Option ℚ
deriving DecidableEq

/-- A Trip record with every cell missing; concrete records in the
theorems below override the relevant fields. -/
def blankTrip : Trip :=
  { tripID := none, vehicleReg := none, driver := none, driverContact := none
    vehicleType := none, startDateTime := none, endDateTime := none
    origin := none, destination := none, purpose := none, purposeCategory := none
    gatePassNumber := none, startMileage := none, startMileagePhoto := none
    endMileage := none, endMileagePhoto := none, distanceKM := none
    dailyAllowance := none, offloadingPay := none, loaderAllowance := none
    securityFee := none, parkingFee := none, nightOutAllowance := none
    status := none }

/-- A FuelEntry record with every cell missing. -/
def blankFuel : FuelEntry :=
  { fuelID := none, vehicleReg := none, driver := none, dateTime := none
    litres := none, cost := none, mileagePhoto := none, receiptPhoto := none
    distanceSinceLastRefuelKM := none, efficiencyKMperL := none }

/-- Python `round(x, 2)` on the model's exact rationals: round to two
decimal places (tie behaviour at exact half-cent values is not exercised
by any claim). -/
def round2 (x : ℚ) : ℚ :=
  ((round (x * 100) : ℤ) : ℚ) / 100

/-! ### Missing-value aware comparisons (pandas semantics) -/

/-- `a < b` on parsed timestamps; false whenever either side is NaT. -/
def optLt (a b : Option Nat) : Bool :=
  match a, b with
  | some x, some y => decide (x < y)
  | _, _ => false

/-- `a ≤ b` on parsed timestamps; false whenever either side is NaT. -/
def optLe (a b : Option Nat) : Bool :=
  match a, b with
  | some x, some y => decide (x ≤ y)
  | _, _ => false

/-- `Series.max()` over parsed timestamps: missing values are skipped;
the result is `none` when no parseable value exists (pandas NaT). -/
def maxOfTimes (l : List (Option Nat)) : Option Nat :=
  l.foldl
    (fun acc o =>
      match acc, o with
      | none, o => o
      | some m, none => some m
      | some m, some x => some (max m x))
    none

/-! ### Fuel and efficiency computation
(`distance_since_last_refuel_km`, `src/app.py` lines 240-270) -/

/-- The mask `(trips["Driver"] == driver) & (trips["VehicleReg"] ==
vehicle_reg) & (trips["Status"] == "closed")`. -/
def closedPairTrip (t : Trip) (driver veh : String) : Bool :=
  decide (t.driver = some driver) && decide (t.vehicleReg = some veh) &&
    decide (t.status = some "closed")

/-- The fuel rows for the pair: `fuel[(fuel["Driver"] == driver) &
(fuel["VehicleReg"] == vehicle_reg)]`. -/
def pairFuelRows (fuel : List FuelEntry) (driver veh : String) : List FuelEntry :=
  fuel.filter fun f => decide (f.driver = some driver) && decide (f.vehicleReg = some veh)

/-- `between["DistanceKM"].fillna(0.0).sum()`: sum of distances with
missing distances counted as 0. -/
def sumDistances (l : List Trip) : ℚ :=
  (l.map fun t => t.distanceKM.getD 0).sum

/-- `distance_since_last_refuel_km(trips_df, fuel_df, driver, vehicle_reg,
this_refuel_time_iso)`.  `asOf` is the parsed `this_refuel_time_iso`.
The outer `Option` of `lastRefuel` is Python `None` (no fuel rows for the
pair at all); the inner `Option` is the parsed maximum, which is NaT
(`none`) when fuel rows exist but none of their timestamps parses. -/
def distance_since_last_refuel_km (trips : List Trip) (fuel : List FuelEntry)
    (driver veh : String) (asOf : Option Nat) : ℚ :=
  if trips = [] then 0
  else
    let ts := trips.filter fun t => closedPairTrip t driver veh
    if ts = [] then 0
    else
      let lastRefuel : Option (Option Nat) :=
        if fuel = [] then none
        else
          let fuelD := pairFuelRows fuel driver veh
          if fuelD = [] then none
          else some (maxOfTimes (fuelD.map (·.dateTime)))
      let between :=
        match lastRefuel with
        | some lr => ts.filter fun t => optLt lr t.endDateTime && optLe t.endDateTime asOf
        | none => ts.filter fun t => optLe t.endDateTime asOf
      if between = [] then 0
      else sumDistances between

/-- The specification's `lastRefuelTime` as the claim words it: the most
recent fuel-log timestamp for the pair that lies strictly before
`asOfTimestamp` (`none` when no such prior fuel-log timestamp exists). -/
def lastPriorRefuelTime (fuel : List FuelEntry) (driver veh : String)
    (asOf : Option Nat) : Option Nat :=
  maxOfTimes (((pairFuelRows fuel driver veh).map (·.dateTime)).filter fun o => optLt o asOf)

/-- `DistanceSinceLastRefuel` exactly as claim C1 states it: sum the
distances of closed trips of the pair whose end timestamp is strictly
greater than the most recent prior fuel-log timestamp (unconditionally if
no prior fuel log exists) and at most `asOfTimestamp`. -/
def specDistanceSinceLastRefuel (trips : List Trip) (fuel : List FuelEntry)
    (driver veh : String) (asOf : Option Nat) : ℚ :=
  sumDistances (trips.filter fun t =>
    closedPairTrip t driver veh &&
      (match lastPriorRefuelTime fuel driver veh asOf with
       | some lr => optLt (some lr) t.endDateTime
       | none => true) &&
      optLe t.endDateTime asOf)

/-- What the code actually uses in place of the spec's `lastRefuelTime`:
the maximum over all stored fuel-log timestamps of the pair, regardless
of `asOfTimestamp`.  Outer `none`: no fuel rows for the pair; `some
none`: rows exist but no timestamp parses (then no trip can qualify). -/
def lastRefuelAllTime (fuel : List FuelEntry) (driver veh : String) : Option (Option Nat) :=
  let fuelD := pairFuelRows fuel driver veh
  if fuelD = [] then none
  else some (maxOfTimes (fuelD.map (·.dateTime)))

/-- Qualification predicate of the amended claim C1. -/
def qualifiesB (fuel : List FuelEntry) (driver veh : String) (asOf : Option Nat)
    (t : Trip) : Bool :=
  match lastRefuelAllTime fuel driver veh with
  | none => optLe t.endDateTime asOf
  | some lr => optLt lr t.endDateTime && optLe t.endDateTime asOf

/-! ### Trip lifecycle (`src/app.py` lines 229-238 and the submit
handlers) -/

/-- Descending-sort key comparison on `StartDateTime` with missing values
ordered last (pandas `sort_values(..., ascending=False)` puts NaN last). -/
def startKeyLt (a b : Option Nat) : Bool :=
  match a, b with
  | none, some _ => true
  | some x, some y => decide (x < y)
  | _, none => false

/-- Accumulator step selecting the open trip with the latest start
(stable: ties keep the earlier row). -/
def pickLater (acc : Option Trip) (t : Trip) : Option Trip :=
  match acc with
  | none => some t
  | some b => if startKeyLt b.startDateTime t.startDateTime then some t else some b

/-- The filter mask of `get_open_trip_for_driver`: driver matches, status
is `open`, and — when a vehicle registration is given (truthy) — the
vehicle matches. -/
def openTripMask (t : Trip) (driver vehicleReg : String) : Bool :=
  decide (t.driver = some driver) && decide (t.status = some "open") &&
    (if vehicleReg ≠ "" then decide (t.vehicleReg = some vehicleReg) else true)

/-- `get_open_trip_for_driver(trips_df, driver, vehicle_reg)`: the most
recent open trip row for the driver (and vehicle), or `none`. -/
def get_open_trip_for_driver (trips : List Trip) (driver vehicleReg : String) : Option Trip :=
  (trips.filter fun t => openTripMask t driver vehicleReg).foldl pickLater none

inductive StartErr where
  | emptyVehicleReg : StartErr
  | emptyDriver : StartErr
  | emptyGatePass : StartErr
  | missingStartPhoto : StartErr
  | duplicateGatePass : StartErr
  | openTripExists : StartErr
deriving DecidableEq

/-- Start Trip form inputs, together with the externally generated trip
id, blob-store reference of the persisted start photo, and clock reading.
`startPhoto` records whether a photo file was uploaded. -/
structure StartInput where
  vehicleReg : String
  driver : String
  driverContact : String
  vehicleType : String
  purpose : String
  purposeCategory : String
  origin : String
  destination : String
  gatePassNumber : String
  startMileage : ℚ
  startPhoto : Bool
  tripID : String
  photoRef : String
deriving DecidableEq

/-- The new open Trip appended by a successful Start Trip submission:
`open` status, start fields set, every end field, the distance and every
allowance null (`EndDateTime` is stored as `""`, i.e. no parseable
timestamp). -/
def startTripRecord (inp : StartInput) (now : Nat) : Trip :=
  { tripID := some inp.tripID
    vehicleReg := some (pyStrip inp.vehicleReg)
    driver := some (pyStrip inp.driver)
    driverContact := if pyStrip inp.driverContact ≠ "" then some (pyStrip inp.driverContact) else none
    vehicleType := some inp.vehicleType
    startDateTime := some now
    endDateTime := none
    origin := some inp.origin
    destination := some inp.destination
    purpose := some inp.purpose
    purposeCategory := some inp.purposeCategory
    gatePassNumber := some (pyStrip inp.gatePassNumber)
    startMileage := some inp.startMileage
    startMileagePhoto := some inp.photoRef
    endMileage := none
    endMileagePhoto := none
    distanceKM := none
    dailyAllowance := none
    offloadingPay := none
    loaderAllowance := none
    securityFee := none
    parkingFee := none
    nightOutAllowance := none
    status := some "open" }

/-- The Start Trip submit handler (`src/app.py` lines 329-387), with the
form-level `.strip()` of the text inputs applied at entry.  Validation
order as in the source: empty vehicle registration, empty driver, empty
gate pass, missing start photo, duplicate gate pass (compared against the
whitespace-stripped stored column, `fillna("")`), then existing open trip
for the driver and vehicle.  On success the new trip is appended and the
table saved; every rejection leaves the ledgers untouched. -/
def startTrip (trips : List Trip) (inp : StartInput) (now : Nat) :
    Except StartErr (List Trip) :=
  let vehicleReg := pyStrip inp.vehicleReg
  let driver := pyStrip inp.driver
  let gate := pyStrip inp.gatePassNumber
  if vehicleReg = "" then .error .emptyVehicleReg
  else if driver = "" then .error .emptyDriver
  else if gate = "" then .error .emptyGatePass
  else if inp.startPhoto = false then .error .missingStartPhoto
  else if gate ∈ (trips.map fun t => pyStrip (t.gatePassNumber.getD "")) ∧ gate ≠ "" then
    .error .duplicateGatePass
  else if (get_open_trip_for_driver trips driver vehicleReg).isSome then
    .error .openTripExists
  else .ok (trips ++ [startTripRecord inp now])

inductive EndErr where
  | missingEndPhoto : EndErr
  | invalidOdometer : EndErr
  | notFound : EndErr
deriving DecidableEq

/-- `trips_df["TripID"] == trip_id` for the located trip's id: a missing
id matches no row (pandas `==` against NaN is elementwise false). -/
def tripIdMatches (t r : Trip) : Bool :=
  match t.tripID with
  | some id => decide (r.tripID = some id)
  | none => false

/-- The in-place update closing the located trip row: end timestamp now,
end odometer, end-photo reference, computed distance, status `closed`,
and the six allowance cells (a falsy — zero — form value is stored as
0.0). -/
def closeTripRecord (r : Trip) (endM a1 a2 a3 a4 a5 a6 : ℚ) (photoRef : String)
    (now : Nat) (dist : ℚ) : Trip :=
  { r with
    endDateTime := some now
    endMileage := some endM
    endMileagePhoto := some photoRef
    distanceKM := some dist
    status := some "closed"
    dailyAllowance := some (if a1 ≠ 0 then a1 else 0)
    offloadingPay := some (if a2 ≠ 0 then a2 else 0)
    loaderAllowance := some (if a3 ≠ 0 then a3 else 0)
    securityFee := some (if a4 ≠ 0 then a4 else 0)
    parkingFee := some (if a5 ≠ 0 then a5 else 0)
    nightOutAllowance := some (if a6 ≠ 0 then a6 else 0) }

/-- The End Trip submit handler (`src/app.py` lines 430-463).  `t` is the
session-cached trip located earlier by `get_open_trip_for_driver`.  Order
as in the source: missing end photo; end mileage below the located trip's
start mileage (a missing start mileage is substituted by 0.0); then the
id must resolve to exactly one stored row, which is closed in place —
note the handler does not re-check that the resolved row is still
`open`. -/
def endTrip (trips : List Trip) (t : Trip) (endPhoto : Bool)
    (endM a1 a2 a3 a4 a5 a6 : ℚ) (photoRef : String) (now : Nat) :
    Except EndErr (List Trip) :=
  if endPhoto = false then .error .missingEndPhoto
  else
    let start_m : ℚ := t.startMileage.getD 0
    if endM < start_m then .error .invalidOdometer
    else
      let distance := round2 (endM - start_m)
      if (trips.filter fun r => tripIdMatches t r).length = 1 then
        .ok (trips.map fun r =>
          if tripIdMatches t r then closeTripRecord r endM a1 a2 a3 a4 a5 a6 photoRef now distance
          else r)
      else .error .notFound

inductive RefuelErr where
  | emptyVehicleReg : RefuelErr
  | emptyDriver : RefuelErr
  | nonPositiveLitres : RefuelErr
  | missingReceipt : RefuelErr
deriving DecidableEq

/-- Log Refuel form inputs plus generated id, blob references and the
presence flags of the two photo uploads. -/
structure RefuelInput where
  vehicleReg : String
  driver : String
  litres : ℚ
  cost : ℚ
  mileagePhoto : Bool
  receiptPhoto : Bool
  fuelID : String
  mileageRef : String
  receiptRef : String
deriving DecidableEq

/-- The new FuelEntry appended by a successful Log Refuel submission:
distance-since-last-refuel and efficiency are computed now, rounded to 2
decimals, and stored; a zero (falsy) cost is stored as missing. -/
def refuelRecord (trips : List Trip) (fuel : List FuelEntry) (inp : RefuelInput)
    (now : Nat) : FuelEntry :=
  let distKm := distance_since_last_refuel_km trips fuel (pyStrip inp.driver)
    (pyStrip inp.vehicleReg) (some now)
  { fuelID := some inp.fuelID
    vehicleReg := some (pyStrip inp.vehicleReg)
    driver := some (pyStrip inp.driver)
    dateTime := some now
    litres := some inp.litres
    cost := if inp.cost ≠ 0 then some inp.cost else none
    mileagePhoto := if inp.mileagePhoto then some inp.mileageRef else none
    receiptPhoto := some inp.receiptRef
    distanceSinceLastRefuelKM := some (round2 distKm)
    efficiencyKMperL :=
      if 0 < inp.litres then some (round2 (distKm / inp.litres)) else none }

/-- The Log Refuel submit handler (`src/app.py` lines 484-525).
Validation order as in the source: empty vehicle registration, empty
driver, non-positive litres, missing receipt photo; then the new entry is
appended to the fuel ledger (the trip ledger is read, never written). -/
def logRefuel (trips : List Trip) (fuel : List FuelEntry) (inp : RefuelInput)
    (now : Nat) : Except RefuelErr (List FuelEntry) :=
  if pyStrip inp.vehicleReg = "" then .error .emptyVehicleReg
  else if pyStrip inp.driver = "" then .error .emptyDriver
  else if inp.litres ≤ 0 then .error .nonPositiveLitres
  else if inp.receiptPhoto = false then .error .missingReceipt
  else .ok (fuel ++ [refuelRecord trips fuel inp now])

/-! ### Serial executions of the mutating operations -/

/-- The persisted state: the Trips table and the Fuel Logs table. -/
def LedgerState : Type := List Trip × List FuelEntry

/-- One successful mutating submission.  A rejected submission writes
nothing, so it does not move the state. -/
inductive Step : LedgerState → LedgerState → Prop where
  | start (trips : List Trip) (fuel : List FuelEntry) (inp : StartInput) (now : Nat)
      (trips' : List Trip) :
      startTrip trips inp now = .ok trips' → Step (trips, fuel) (trips', fuel)
  | endT (trips : List Trip) (fuel : List FuelEntry) (t : Trip) (endPhoto : Bool)
      (endM a1 a2 a3 a4 a5 a6 : ℚ) (photoRef : String) (now : Nat) (trips' : List Trip) :
      endTrip trips t endPhoto endM a1 a2 a3 a4 a5 a6 photoRef now = .ok trips' →
      Step (trips, fuel) (trips', fuel)
  | refuel (trips : List Trip) (fuel : List FuelEntry) (inp : RefuelInput) (now : Nat)
      (fuel' : List FuelEntry) :
      logRefuel trips fuel inp now = .ok fuel' → Step (trips, fuel) (trips, fuel')

/-- Ledger states reachable from the empty ledgers by serially executed
mutating operations. -/
def Reachable (s : LedgerState) : Prop :=
  Relation.ReflTransGen Step (([], []) : LedgerState) s

/-! ### Reporting: the dashboard date-range filter
(`src/app.py` lines 552-564) -/

/-- Day (date) of a parsed timestamp, at one-day granularity. -/
def dayOf (ts : Nat) : Nat := ts / 86400

/-- `dt.date >= start_date` and `<= end_date` on one timestamp column; a
missing (NaT) timestamp matches no range. -/
def inDateRange (ts : Option Nat) (s e : Nat) : Bool :=
  match ts with
  | some x => decide (s ≤ dayOf x) && decide (dayOf x ≤ e)
  | none => false

/-- The dashboard's date filter on trips: it tests `StartDateTime` only. -/
def filterTripsByDate (trips : List Trip) (s e : Nat) : List Trip :=
  trips.filter fun t => inDateRange t.startDateTime s e

/-- The dashboard's date filter on fuel entries: it tests `DateTime`. -/
def filterFuelByDate (fuel : List FuelEntry) (s e : Nat) : List FuelEntry :=
  fuel.filter fun f => inDateRange f.dateTime s e

/-- Claim C7's trip criterion, as the spec words it: the trip's start OR
its end falls in the range. -/
def specTripMatchesRange (t : Trip) (s e : Nat) : Bool :=
  inDateRange t.startDateTime s e || inDateRange t.endDateTime s e

/-! ### Concrete records used by the witnesses and counterexamples -/

/-- A closed trip of the pair ("A", "V") that ended at time 5 with 7 km. -/
def tripC1 : Trip :=
  { blankTrip with
    driver := some "A", vehicleReg := some "V", status := some "closed"
    endDateTime := some 5, distanceKM := some 7 }

/-- A fuel entry of the pair ("A", "V") timestamped 10 — after the
`asOfTimestamp` 6 used in the C1 counterexample. -/
def fuelC1 : FuelEntry :=
  { blankFuel with driver := some "A", vehicleReg := some "V", dateTime := some 10 }

/-- An open trip with start odometer 100. -/
def tOpenW : Trip :=
  { blankTrip with tripID := some "T1", status := some "open", startMileage := some 100 }

/-- A closed trip whose id still resolves: used to show End Trip does not
re-check the `open` status. -/
def tClosedC3 : Trip :=
  { blankTrip with tripID := some "T9", status := some "closed", startMileage := some 0 }

/-- An open trip whose start odometer cell is missing. -/
def tOpenNull : Trip :=
  { blankTrip with tripID := some "T2", status := some "open" }

/-- A trip starting on day 0 and ending on day 4. -/
def tripC7 : Trip :=
  { blankTrip with startDateTime := some 0, endDateTime := some 345600 }

/-- A valid Start Trip submission. -/
def inpStartW : StartInput :=
  { vehicleReg := "V"
    driver := "A", driverContact := "", vehicleType := "Truck"
    purpose := "", purposeCategory := "Delivery", origin := "", destination := ""
    gatePassNumber := "G", startMileage := 100, startPhoto := true
    tripID := "T1", photoRef := "ph" }

/-- A Start Trip submission with a whitespace-only driver name. -/
def inpStartBad : StartInput :=
  { inpStartW with driver := " " }

/-- A valid Log Refuel submission of 10 litres. -/
def inpRefW : RefuelInput :=
  { vehicleReg := "V"
    driver := "A", litres := 10, cost := 0
    mileagePhoto := false, receiptPhoto := true, fuelID := "F1"
    mileageRef := "", receiptRef := "rc" }

/-! ## Lemmas -/

/-! ### `pyStrip` is idempotent -/

theorem dropWhile_head_not {α : Type} (p : α → Bool) (l : List α) {a : α} {t : List α}
    (h : l.dropWhile p = a :: t) : p a = false := by
  induction l with
  | nil => simp at h
  | cons b bs ih =>
    rw [List.dropWhile_cons] at h
    cases hpb : p b with
    | true => rw [if_pos hpb] at h; exact ih h
    | false =>
      rw [if_neg (by simp [hpb])] at h
      obtain ⟨rfl, -⟩ := List.cons.inj h
      exact hpb

theorem dropWhile_eq_self {α : Type} (p : α → Bool) (l : List α)
    (h : ∀ a t, l = a :: t → p a = false) : l.dropWhile p = l := by
  cases l with
  | nil => rfl
  | cons a t => rw [List.dropWhile_cons, h a t rfl]; simp

theorem dropWhile_dropWhile {α : Type} (p : α → Bool) (l : List α) :
    (l.dropWhile p).dropWhile p = l.dropWhile p :=
  dropWhile_eq_self p _ fun _ _ h => dropWhile_head_not p l h

theorem head?_append_left {α : Type} (l l2 : List α) (h : l ≠ []) :
    (l ++ l2).head? = l.head? := by
  cases l with
  | nil => exact absurd rfl h
  | cons a t => rfl

theorem head?_reverse_dropWhile {α : Type} (p : α → Bool) (x : List α)
    (h : x.dropWhile p ≠ []) : (x.dropWhile p).reverse.head? = x.reverse.head? := by
  conv_rhs => rw [← List.takeWhile_append_dropWhile p x]
  rw [List.reverse_append, head?_append_left]
  exact fun hc => h (List.reverse_eq_nil_iff.mp hc)

theorem stripData_idem (l : List Char) : stripData (stripData l) = stripData l := by
  unfold stripData
  generalize hu : l.dropWhile Char.isWhitespace = u
  generalize hv : u.reverse.dropWhile Char.isWhitespace = v
  by_cases hvnil : v = []
  · simp [hvnil]
  · have h1 : v.reverse.dropWhile Char.isWhitespace = v.reverse := by
      apply dropWhile_eq_self
      intro a t ht
      have hva : v.reverse.head? = some a := by rw [ht]; rfl
      have hune : u.reverse.dropWhile Char.isWhitespace ≠ [] := by rw [hv]; exact hvnil
      have h2 : v.reverse.head? = u.head? := by
        rw [← hv, head?_reverse_dropWhile _ _ hune, List.reverse_reverse]
      have hua : u.head? = some a := h2.symm.trans hva
      cases hcu : u with
      | nil => rw [hcu] at hua; exact absurd hua (by simp)
      | cons b bs =>
        have hb : b = a := by rw [hcu] at hua; simpa using hua
        subst hb
        rw [hcu] at hu
        exact dropWhile_head_not Char.isWhitespace l hu
    rw [h1, List.reverse_reverse]
    have h3 : v.dropWhile Char.isWhitespace = v := by
      rw [← hv]; exact dropWhile_dropWhile _ _
    rw [h3]

theorem pyStrip_idem (s : String) : pyStrip (pyStrip s) = pyStrip s := by
  unfold pyStrip
  rw [show (String.mk (stripData s.data)).data = stripData s.data from rfl, stripData_idem]

/-! ### Small generic helpers -/

theorem ite_zero_self (a : ℚ) : (if a ≠ 0 then a else 0) = a := by
  by_cases h : a = 0 <;> simp [h]

theorem sumDistances_ite_nil (l : List Trip) :
    (if l = [] then (0 : ℚ) else sumDistances l) = sumDistances l := by
  cases l <;> simp [sumDistances]

theorem pickLater_eq_some (b : Trip) (t : Trip) :
    pickLater (some b) t = some (if startKeyLt b.startDateTime t.startDateTime then t else b) := by
  show (if startKeyLt b.startDateTime t.startDateTime then some t else some b) = _
  split <;> rfl

theorem foldl_pickLater_ne_none (l : List Trip) (b : Trip) :
    l.foldl pickLater (some b) ≠ none := by
  induction l generalizing b with
  | nil => simp
  | cons t ts ih =>
    show ts.foldl pickLater (pickLater (some b) t) ≠ none
    rw [pickLater_eq_some]
    exact ih _

theorem get_open_none_iff (trips : List Trip) (d v : String) :
    get_open_trip_for_driver trips d v = none ↔
      (trips.filter fun t => openTripMask t d v) = [] := by
  unfold get_open_trip_for_driver
  cases hf : trips.filter fun t => openTripMask t d v with
  | nil => simp
  | cons a t =>
    constructor
    · intro h
      exact absurd h (by show t.foldl pickLater (pickLater none a) ≠ none; exact foldl_pickLater_ne_none t a)
    · intro h
      exact absurd h (by simp)

/-! ### Success-case inversion of the three submit handlers -/

theorem startTrip_ok_elim {trips : List Trip} {inp : StartInput} {now : Nat}
    {trips' : List Trip} (h : startTrip trips inp now = .ok trips') :
    trips' = trips ++ [startTripRecord inp now] ∧
    pyStrip inp.vehicleReg ≠ "" ∧ pyStrip inp.driver ≠ "" ∧
    pyStrip inp.gatePassNumber ≠ "" ∧ inp.startPhoto = true ∧
    pyStrip inp.gatePassNumber ∉ (trips.map fun t => pyStrip (t.gatePassNumber.getD "")) ∧
    get_open_trip_for_driver trips (pyStrip inp.driver) (pyStrip inp.vehicleReg) = none := by
  simp only [startTrip] at h
  by_cases h1 : pyStrip inp.vehicleReg = ""
  · rw [if_pos h1] at h; exact Except.noConfusion h
  rw [if_neg h1] at h
  by_cases h2 : pyStrip inp.driver = ""
  · rw [if_pos h2] at h; exact Except.noConfusion h
  rw [if_neg h2] at h
  by_cases h3 : pyStrip inp.gatePassNumber = ""
  · rw [if_pos h3] at h; exact Except.noConfusion h
  rw [if_neg h3] at h
  by_cases h4 : inp.startPhoto = false
  · rw [if_pos h4] at h; exact Except.noConfusion h
  rw [if_neg h4] at h
  have h4' : inp.startPhoto = true := by revert h4; cases inp.startPhoto <;> simp
  by_cases h5 : pyStrip inp.gatePassNumber ∈ (trips.map fun t => pyStrip (t.gatePassNumber.getD "")) ∧
      pyStrip inp.gatePassNumber ≠ ""
  · rw [if_pos h5] at h; exact Except.noConfusion h
  rw [if_neg h5] at h
  have h5' : pyStrip inp.gatePassNumber ∉ (trips.map fun t => pyStrip (t.gatePassNumber.getD "")) :=
    fun hm => h5 ⟨hm, h3⟩
  by_cases h6 : (get_open_trip_for_driver trips (pyStrip inp.driver) (pyStrip inp.vehicleReg)).isSome = true
  · rw [if_pos h6] at h; exact Except.noConfusion h
  rw [if_neg h6] at h
  have h6' : get_open_trip_for_driver trips (pyStrip inp.driver) (pyStrip inp.vehicleReg) = none :=
    Option.not_isSome_iff_eq_none.mp h6
  injection h with h
  exact ⟨h.symm, h1, h2, h3, h4', h5', h6'⟩

theorem endTrip_ok_elim {trips : List Trip} {t : Trip} {endPhoto : Bool}
    {endM a1 a2 a3 a4 a5 a6 : ℚ} {photoRef : String} {now : Nat} {trips' : List Trip}
    (h : endTrip trips t endPhoto endM a1 a2 a3 a4 a5 a6 photoRef now = .ok trips') :
    trips' = trips.map (fun r =>
      if tripIdMatches t r then
        closeTripRecord r endM a1 a2 a3 a4 a5 a6 photoRef now (round2 (endM - t.startMileage.getD 0))
      else r) ∧
    endPhoto = true ∧ ¬ endM < t.startMileage.getD 0 ∧
    (trips.filter fun r => tripIdMatches t r).length = 1 := by
  simp only [endTrip] at h
  by_cases h1 : endPhoto = false
  · rw [if_pos h1] at h; exact Except.noConfusion h
  rw [if_neg h1] at h
  have h1' : endPhoto = true := by revert h1; cases endPhoto <;> simp
  by_cases h2 : endM < t.startMileage.getD 0
  · rw [if_pos h2] at h; exact Except.noConfusion h
  rw [if_neg h2] at h
  by_cases h3 : (trips.filter fun r => tripIdMatches t r).length = 1
  · rw [if_pos h3] at h
    injection h with h
    exact ⟨h.symm, h1', h2, h3⟩
  · rw [if_neg h3] at h; exact Except.noConfusion h

theorem logRefuel_ok_elim {trips : List Trip} {fuel : List FuelEntry} {inp : RefuelInput}
    {now : Nat} {fuel' : List FuelEntry} (h : logRefuel trips fuel inp now = .ok fuel') :
    fuel' = fuel ++ [refuelRecord trips fuel inp now] := by
  simp only [logRefuel] at h
  by_cases h1 : pyStrip inp.vehicleReg = ""
  · rw [if_pos h1] at h; exact Except.noConfusion h
  rw [if_neg h1] at h
  by_cases h2 : pyStrip inp.driver = ""
  · rw [if_pos h2] at h; exact Except.noConfusion h
  rw [if_neg h2] at h
  by_cases h3 : inp.litres ≤ 0
  · rw [if_pos h3] at h; exact Except.noConfusion h
  rw [if_neg h3] at h
  by_cases h4 : inp.receiptPhoto = false
  · rw [if_pos h4] at h; exact Except.noConfusion h
  rw [if_neg h4] at h
  injection h with h
  exact h.symm

/-! ### Invariants along serial executions -/

theorem reachable_induction {P : LedgerState → Prop} (h0 : P ([], []))
    (hstep : ∀ s s2, P s → Step s s2 → P s2) : ∀ s, Reachable s → P s := by
  intro s h
  unfold Reachable at h
  induction h with
  | refl => exact h0
  | tail _ hst ih => exact hstep _ _ ih hst

theorem closeTripRecord_gatePassNumber (r : Trip) (endM a1 a2 a3 a4 a5 a6 : ℚ)
    (photoRef : String) (now : Nat) (dist : ℚ) :
    (closeTripRecord r endM a1 a2 a3 a4 a5 a6 photoRef now dist).gatePassNumber =
      r.gatePassNumber := rfl

theorem closeTripRecord_status (r : Trip) (endM a1 a2 a3 a4 a5 a6 : ℚ)
    (photoRef : String) (now : Nat) (dist : ℚ) :
    (closeTripRecord r endM a1 a2 a3 a4 a5 a6 photoRef now dist).status = some "closed" := rfl

theorem step_preserves_gate {s s2 : LedgerState} (hst : Step s s2)
    (hI : s.1.Pairwise fun a b =>
      pyStrip (a.gatePassNumber.getD "") ≠ pyStrip (b.gatePassNumber.getD "")) :
    s2.1.Pairwise fun a b =>
      pyStrip (a.gatePassNumber.getD "") ≠ pyStrip (b.gatePassNumber.getD "") := by
  cases hst with
  | start trips fuel inp now trips' h =>
    obtain ⟨rfl, -, -, -, -, hmem, -⟩ := startTrip_ok_elim h
    rw [List.pairwise_append]
    refine ⟨hI, List.pairwise_singleton _ _, ?_⟩
    intro a ha b hb
    have hb' : b = startTripRecord inp now := by simpa using hb
    subst hb'
    show pyStrip (a.gatePassNumber.getD "") ≠
      pyStrip ((some (pyStrip inp.gatePassNumber)).getD "")
    rw [Option.getD_some, pyStrip_idem]
    intro hcontra
    exact hmem (hcontra ▸ List.mem_map_of_mem _ ha)
  | endT trips fuel t endPhoto endM a1 a2 a3 a4 a5 a6 photoRef now trips' h =>
    obtain ⟨rfl, -, -, -⟩ := endTrip_ok_elim h
    rw [List.pairwise_map]
    refine hI.imp ?_
    intro a b hab
    show pyStrip ((if tripIdMatches t a then _ else a).gatePassNumber.getD "") ≠
      pyStrip ((if tripIdMatches t b then _ else b).gatePassNumber.getD "")
    have hga : ∀ r : Trip, ((if tripIdMatches t r then
        closeTripRecord r endM a1 a2 a3 a4 a5 a6 photoRef now
          (round2 (endM - t.startMileage.getD 0)) else r)).gatePassNumber =
        r.gatePassNumber := by
      intro r
      split
      · exact closeTripRecord_gatePassNumber _ _ _ _ _ _ _ _ _ _ _
      · rfl
    rw [hga a, hga b]
    exact hab
  | refuel trips fuel inp now fuel' h => exact hI

theorem step_preserves_open {s s2 : LedgerState} (hst : Step s s2)
    (hI : ∀ d v : String, (s.1.countP fun tr =>
      decide (tr.driver = some d) && decide (tr.status = some "open") &&
        decide (tr.vehicleReg = some v)) ≤ 1) :
    ∀ d v : String, (s2.1.countP fun tr =>
      decide (tr.driver = some d) && decide (tr.status = some "open") &&
        decide (tr.vehicleReg = some v)) ≤ 1 := by
  cases hst with
  | start trips fuel inp now trips' h =>
    obtain ⟨rfl, hv, -, -, -, -, hopen⟩ := startTrip_ok_elim h
    intro d v
    rw [List.countP_append]
    by_cases hdv : d = pyStrip inp.driver ∧ v = pyStrip inp.vehicleReg
    · obtain ⟨rfl, rfl⟩ := hdv
      have hzero : (trips.countP fun tr =>
          decide (tr.driver = some (pyStrip inp.driver)) && decide (tr.status = some "open") &&
            decide (tr.vehicleReg = some (pyStrip inp.vehicleReg))) = 0 := by
        rw [List.countP_eq_zero]
        intro a ha
        have hmask := List.filter_eq_nil_iff.mp ((get_open_none_iff _ _ _).mp hopen) a ha
        unfold openTripMask at hmask
        rw [if_pos hv] at hmask
        exact hmask
      rw [hzero]
      have hone : (List.countP (fun tr =>
          decide (tr.driver = some (pyStrip inp.driver)) && decide (tr.status = some "open") &&
            decide (tr.vehicleReg = some (pyStrip inp.vehicleReg))) [startTripRecord inp now]) ≤ 1 := by
        rw [List.countP_cons, List.countP_nil]
        split <;> omega
      omega
    · have hnew : (List.countP (fun tr =>
          decide (tr.driver = some d) && decide (tr.status = some "open") &&
            decide (tr.vehicleReg = some v)) [startTripRecord inp now]) = 0 := by
        rw [List.countP_eq_zero]
        intro a ha
        have ha' : a = startTripRecord inp now := by simpa using ha
        subst ha'
        intro hpred
        simp only [startTripRecord, Bool.and_eq_true, decide_eq_true_eq] at hpred
        obtain ⟨⟨hd', -⟩, hv'⟩ := hpred
        exact hdv ⟨(Option.some.inj hd').symm, (Option.some.inj hv').symm⟩
      rw [hnew]
      have hIb : (trips.countP fun tr =>
          decide (tr.driver = some d) && decide (tr.status = some "open") &&
            decide (tr.vehicleReg = some v)) ≤ 1 := hI d v
      omega
  | endT trips fuel t endPhoto endM a1 a2 a3 a4 a5 a6 photoRef now trips' h =>
    obtain ⟨rfl, -, -, -⟩ := endTrip_ok_elim h
    intro d v
    rw [List.countP_map]
    refine le_trans (List.countP_mono_left ?_) (hI d v)
    intro r hr hmap
    simp only [Function.comp] at hmap
    by_cases hm : tripIdMatches t r = true
    · simp [hm, closeTripRecord] at hmap
    · simp only [hm, if_false, Bool.false_eq_true, if_neg] at hmap
      exact hmap
  | refuel trips fuel inp now fuel' h => exact hI

/-! ## Claims -/

/-- Claim C1 (amended): for every ledger state and every (driver, vehicle,
asOfTimestamp), `DistanceSinceLastRefuel` returns the sum of the distance
field (missing distances counted as 0) over exactly those closed trips of
the exact (driver, vehicle) pair whose end timestamp is strictly greater
than the maximum parseable timestamp among ALL stored fuel logs of the
pair — not only those prior to `asOfTimestamp`; when fuel rows exist for
the pair but none has a parseable timestamp no trip qualifies —
(or unconditionally when the pair has no fuel rows at all) and is less
than or equal to `asOfTimestamp`; it returns 0.0 when no trip qualifies. -/
theorem C1_distance_amended :
    ∀ (trips : List Trip) (fuel : List FuelEntry) (driver veh : String) (asOf : Option Nat),
      distance_since_last_refuel_km trips fuel driver veh asOf =
        sumDistances (trips.filter fun t =>
          closedPairTrip t driver veh && qualifiesB fuel driver veh asOf t) := by
  intro trips fuel driver veh asOf
  have hfuse : (trips.filter fun t =>
      closedPairTrip t driver veh && qualifiesB fuel driver veh asOf t) =
      ((trips.filter fun t => closedPairTrip t driver veh).filter fun t =>
        qualifiesB fuel driver veh asOf t) := by
    rw [List.filter_filter]
    exact List.filter_congr fun a _ => Bool.and_comm _ _
  simp only [distance_since_last_refuel_km]
  by_cases h1 : trips = []
  · subst h1
    simp [sumDistances]
  · rw [if_neg h1]
    by_cases h2 : (trips.filter fun t => closedPairTrip t driver veh) = []
    · rw [if_pos h2, hfuse, h2]
      simp [sumDistances]
    · rw [if_neg h2]
      have hlast : (if fuel = [] then (none : Option (Option Nat))
          else if pairFuelRows fuel driver veh = [] then none
          else some (maxOfTimes ((pairFuelRows fuel driver veh).map (·.dateTime)))) =
          lastRefuelAllTime fuel driver veh := by
        cases fuel with
        | nil => simp [lastRefuelAllTime, pairFuelRows]
        | cons a l => simp [lastRefuelAllTime]
      rw [hlast, hfuse]
      cases hLR : lastRefuelAllTime fuel driver veh with
      | none =>
        have hq : ((trips.filter fun t => closedPairTrip t driver veh).filter fun t =>
            qualifiesB fuel driver veh asOf t) =
            ((trips.filter fun t => closedPairTrip t driver veh).filter fun t =>
              optLe t.endDateTime asOf) :=
          List.filter_congr fun a _ => by simp [qualifiesB, hLR]
        rw [hq]
        exact sumDistances_ite_nil _
      | some lr =>
        have hq : ((trips.filter fun t => closedPairTrip t driver veh).filter fun t =>
            qualifiesB fuel driver veh asOf t) =
            ((trips.filter fun t => closedPairTrip t driver veh).filter fun t =>
              optLt lr t.endDateTime && optLe t.endDateTime asOf) :=
          List.filter_congr fun a _ => by simp [qualifiesB, hLR]
        rw [hq]
        exact sumDistances_ite_nil _

/-- Claim C1 counterexample: with one closed trip of the pair ("A", "V")
ended at time 5 with distance 7, and one fuel log of the pair timestamped
10, `DistanceSinceLastRefuel` at `asOfTimestamp` 6 returns 0, while the
claim's own predicate (most recent PRIOR fuel-log timestamp — there is
none before 6, hence unconditional) sums to 7. -/
theorem C1_counterexample :
    distance_since_last_refuel_km [tripC1] [fuelC1] "A" "V" (some 6) = 0 ∧
    specDistanceSinceLastRefuel [tripC1] [fuelC1] "A" "V" (some 6) = 7 ∧
    distance_since_last_refuel_km [tripC1] [fuelC1] "A" "V" (some 6) ≠
      specDistanceSinceLastRefuel [tripC1] [fuelC1] "A" "V" (some 6) := by
  have h1 : distance_since_last_refuel_km [tripC1] [fuelC1] "A" "V" (some 6) = 0 := by decide
  have h2 : specDistanceSinceLastRefuel [tripC1] [fuelC1] "A" "V" (some 6) = 7 := by
    simp [specDistanceSinceLastRefuel, sumDistances, lastPriorRefuelTime, pairFuelRows,
      maxOfTimes, closedPairTrip, optLt, optLe, tripC1, fuelC1, blankTrip, blankFuel]
  refine ⟨h1, h2, ?_⟩
  rw [h1, h2]
  norm_num

/-- Claim C7 (amended): a trip is included in the dashboard's date-range
filter if and only if its START timestamp falls within the range (the end
timestamp is not consulted); a fuel entry is included if and only if its
timestamp falls within the range. -/
theorem C7_date_filter_amended :
    ∀ (trips : List Trip) (fuel : List FuelEntry) (s e : Nat) (t : Trip) (f : FuelEntry),
      (t ∈ filterTripsByDate trips s e ↔
        t ∈ trips ∧ inDateRange t.startDateTime s e = true) ∧
      (f ∈ filterFuelByDate fuel s e ↔ f ∈ fuel ∧ inDateRange f.dateTime s e = true) := by
  intro trips fuel s e t f
  exact ⟨List.mem_filter, List.mem_filter⟩

/-- Claim C7 counterexample: a trip starting on day 0 and ending on day 4
matches the spec's criterion for the range of days 3..6 (its end falls in
range), yet the dashboard's date filter excludes it, because the filter
tests the start timestamp only. -/
theorem C7_counterexample :
    specTripMatchesRange tripC7 3 6 = true ∧ tripC7 ∉ filterTripsByDate [tripC7] 3 6 := by
  decide

/-- Claim C8: `Load` never fails — a missing backing file yields an empty
table with the canonical column set, any canonical column absent from the
stored data is added filled as null, every unparseable cell of a numeric
column becomes null rather than an error, and the records come back in
the canonical column order. -/
theorem C8_load_schema :
    (∀ (columns numericCols : List String),
      load_csv_with_schema none columns numericCols = { cols := columns, rows := [] }) ∧
    (∀ (raw : RawTable) (columns numericCols : List String),
      (load_csv_with_schema (some raw) columns numericCols).cols = columns ∧
      (load_csv_with_schema (some raw) columns numericCols).rows =
        raw.rows.map fun row => columns.map fun c => coerceCell raw.cols row numericCols c) ∧
    (∀ (rawCols : List String) (row : List (Option String)) (numericCols : List String)
      (c : String), c ∉ rawCols → coerceCell rawCols row numericCols c = Cell.null) ∧
    (∀ (rawCols : List String) (row : List (Option String)) (numericCols : List String)
      (c s : String), c ∈ numericCols → rawCell rawCols row c = some s → parseNum s = none →
      coerceCell rawCols row numericCols c = Cell.null) := by
  refine ⟨fun _ _ => rfl, fun _ _ _ => ⟨rfl, rfl⟩, ?_, ?_⟩
  · intro rawCols row numericCols c hc
    have hidx : colIndex rawCols c = none := by
      induction rawCols with
      | nil => rfl
      | cons a t ih =>
        have h1 : ¬ a = c := fun h => hc (h ▸ List.mem_cons_self a t)
        have h2 : c ∉ t := fun h => hc (List.mem_cons_of_mem _ h)
        show (if a = c then some 0 else (colIndex t c).map (· + 1)) = none
        rw [if_neg h1, ih h2]
        rfl
    unfold coerceCell rawCell
    rw [hidx]
  · intro rawCols row numericCols c s hcn hcell hparse
    simp [coerceCell, hcell, hcn, hparse]

/-- Claim C8 witness: the empty-file branch on the canonical trip schema,
a column absent from the stored header, and an unparseable numeric cell. -/
theorem C8_witness :
    load_csv_with_schema none TRIP_COLUMNS TRIP_NUMERIC = { cols := TRIP_COLUMNS, rows := [] } ∧
    coerceCell ["A"] [some "x"] [] "B" = Cell.null ∧
    coerceCell ["Litres"] [some "abc"] FUEL_NUMERIC "Litres" = Cell.null :=
  ⟨C8_load_schema.1 TRIP_COLUMNS TRIP_NUMERIC,
   C8_load_schema.2.2.1 ["A"] [some "x"] [] "B" (by decide),
   C8_load_schema.2.2.2 ["Litres"] [some "abc"] FUEL_NUMERIC "Litres" "abc"
     (by decide) rfl (by decide)⟩

/-- Claim C9: fuel-log entries are fixed at creation — every step of a
serial execution preserves the already stored fuel entries (so a stored
efficiency is never recomputed; in particular closing a new trip after a
refuel leaves that refuel's entry unchanged), and a successful LogRefuel
only appends its one new entry. -/
theorem C9_fuel_immutable :
    (∀ s s2 : LedgerState, Step s s2 →
      (∀ i : Nat, i < s.2.length → s2.2[i]? = s.2[i]?) ∧
      (s2.2 = s.2 ∨ ∃ en, s2.2 = s.2 ++ [en])) ∧
    (∀ (trips : List Trip) (fuel : List FuelEntry) (inp : RefuelInput) (now : Nat)
      (fuel' : List FuelEntry), logRefuel trips fuel inp now = .ok fuel' →
      fuel' = fuel ++ [refuelRecord trips fuel inp now]) := by
  constructor
  · intro s s2 hst
    cases hst with
    | start trips fuel inp now trips' h => exact ⟨fun i _ => rfl, Or.inl rfl⟩
    | endT trips fuel t endPhoto endM a1 a2 a3 a4 a5 a6 photoRef now trips' h =>
      exact ⟨fun i _ => rfl, Or.inl rfl⟩
    | refuel trips fuel inp now fuel' h =>
      obtain rfl := logRefuel_ok_elim h
      exact ⟨fun i hi => List.getElem?_append_left hi, Or.inr ⟨_, rfl⟩⟩
  · intro trips fuel inp now fuel' h
    exact logRefuel_ok_elim h

/-- Claim C9 witness: a concrete refuel step from the empty ledgers. -/
theorem C9_witness :
    (∀ i : Nat, i < ([] : List FuelEntry).length →
      ([] ++ [refuelRecord [] [] inpRefW 0] : List FuelEntry)[i]? =
        ([] : List FuelEntry)[i]?) ∧
    (([] ++ [refuelRecord [] [] inpRefW 0] : List FuelEntry) = [] ∨
      ∃ en, ([] ++ [refuelRecord [] [] inpRefW 0] : List FuelEntry) = [] ++ [en]) :=
  C9_fuel_immutable.1 ([], []) ([], [] ++ [refuelRecord [] [] inpRefW 0])
    (Step.refuel [] [] inpRefW 0 ([] ++ [refuelRecord [] [] inpRefW 0]) rfl)

/-- Claim C2: for every open trip located by End Trip (end photo
supplied, id resolving to exactly one stored row, start odometer
present): if the supplied end odometer is strictly below the located
trip's start odometer the submission is rejected with InvalidOdometer
(returning an error, so neither ledger is written); otherwise the trip is
closed in place with end timestamp `now`, the end odometer, the end-photo
reference, distance `round(end − start, 2)`, status `closed`, and each
allowance cell set to the supplied amount (a zero or unsupplied form
value is stored as 0, i.e. the supplied amount itself); all other rows
are untouched. -/
theorem C2_end_trip_closes :
    ∀ (trips : List Trip) (t : Trip) (s endM a1 a2 a3 a4 a5 a6 : ℚ)
      (photoRef : String) (now : Nat),
      t.status = some "open" → t.startMileage = some s →
      (trips.filter fun r => tripIdMatches t r).length = 1 →
      (endM < s →
        endTrip trips t true endM a1 a2 a3 a4 a5 a6 photoRef now = .error .invalidOdometer) ∧
      (¬ endM < s →
        ∃ trips', endTrip trips t true endM a1 a2 a3 a4 a5 a6 photoRef now = .ok trips' ∧
          trips'.length = trips.length ∧
          ∀ (i : Nat) (r : Trip), trips[i]? = some r →
            ∃ r2, trips'[i]? = some r2 ∧
              (tripIdMatches t r = true →
                r2.status = some "closed" ∧ r2.endDateTime = some now ∧
                r2.endMileage = some endM ∧ r2.endMileagePhoto = some photoRef ∧
                r2.distanceKM = some (round2 (endM - s)) ∧
                r2.dailyAllowance = some a1 ∧ r2.offloadingPay = some a2 ∧
                r2.loaderAllowance = some a3 ∧ r2.securityFee = some a4 ∧
                r2.parkingFee = some a5 ∧ r2.nightOutAllowance = some a6) ∧
              (tripIdMatches t r = false → r2 = r)) := by
  intro trips t s endM a1 a2 a3 a4 a5 a6 photoRef now hopen hs hcount
  constructor
  · intro hlt
    simp only [endTrip]
    rw [if_neg (show ¬(true = false) by simp), hs]
    rw [show (some s).getD 0 = s from rfl, if_pos hlt]
  · intro hge
    simp only [endTrip]
    rw [if_neg (show ¬(true = false) by simp), hs]
    rw [show (some s).getD 0 = s from rfl, if_neg hge, if_pos hcount]
    refine ⟨_, rfl, List.length_map _ _, ?_⟩
    intro i r hir
    refine ⟨if tripIdMatches t r then
        closeTripRecord r endM a1 a2 a3 a4 a5 a6 photoRef now (round2 (endM - s))
      else r, ?_, ?_, ?_⟩
    · rw [List.getElem?_map, hir]
      rfl
    · intro hm
      rw [if_pos hm]
      exact ⟨rfl, rfl, rfl, rfl, rfl, congrArg some (ite_zero_self a1),
        congrArg some (ite_zero_self a2), congrArg some (ite_zero_self a3),
        congrArg some (ite_zero_self a4), congrArg some (ite_zero_self a5),
        congrArg some (ite_zero_self a6)⟩
    · intro hm
      rw [if_neg (by simp [hm])]

/-- Claim C2 witness: Scenario 6 (endOdo 90 against startOdo 100 is
rejected with InvalidOdometer) and a successful close at endOdo 150. -/
theorem C2_witness :
    endTrip [tOpenW] tOpenW true 90 0 0 0 0 0 0 "p" 7 = .error .invalidOdometer ∧
    ∃ trips', endTrip [tOpenW] tOpenW true 150 1 2 3 4 5 6 "p" 7 = .ok trips' ∧
      trips'.length = [tOpenW].length ∧
      ∀ (i : Nat) (r : Trip), ([tOpenW] : List Trip)[i]? = some r →
        ∃ r2, trips'[i]? = some r2 ∧
          (tripIdMatches tOpenW r = true →
            r2.status = some "closed" ∧ r2.endDateTime = some 7 ∧
            r2.endMileage = some 150 ∧ r2.endMileagePhoto = some "p" ∧
            r2.distanceKM = some (round2 (150 - 100)) ∧
            r2.dailyAllowance = some 1 ∧ r2.offloadingPay = some 2 ∧
            r2.loaderAllowance = some 3 ∧ r2.securityFee = some 4 ∧
            r2.parkingFee = some 5 ∧ r2.nightOutAllowance = some 6) ∧
          (tripIdMatches tOpenW r = false → r2 = r) :=
  ⟨(C2_end_trip_closes [tOpenW] tOpenW 100 90 0 0 0 0 0 0 "p" 7 rfl rfl (by decide)).1
      (by norm_num),
   (C2_end_trip_closes [tOpenW] tOpenW 100 150 1 2 3 4 5 6 "p" 7 rfl rfl (by decide)).2
      (by norm_num)⟩

/-- Claim C3 (amended): with the end photo supplied and the odometer
check passed, End Trip rejects with NotFound — leaving the ledger
unchanged — exactly when the given trip id does not resolve to exactly
one stored row.  The `open` status of the resolved row is NOT re-checked
at submission time (see `C3_counterexample`). -/
theorem C3_not_found_amended :
    ∀ (trips : List Trip) (t : Trip) (endM a1 a2 a3 a4 a5 a6 : ℚ)
      (photoRef : String) (now : Nat),
      ¬ endM < t.startMileage.getD 0 →
      (endTrip trips t true endM a1 a2 a3 a4 a5 a6 photoRef now = .error .notFound ↔
        (trips.filter fun r => tripIdMatches t r).length ≠ 1) := by
  intro trips t endM a1 a2 a3 a4 a5 a6 photoRef now hodo
  simp only [endTrip]
  rw [if_neg (show ¬(true = false) by simp), if_neg hodo]
  by_cases hc : (trips.filter fun r => tripIdMatches t r).length = 1
  · rw [if_pos hc]
    simp [hc]
  · rw [if_neg hc]
    simp [hc]

/-- Claim C3 witness: an id resolving to no stored row is rejected with
NotFound. -/
theorem C3_witness :
    endTrip [] blankTrip true 0 0 0 0 0 0 0 "p" 1 = .error .notFound :=
  (C3_not_found_amended [] blankTrip 0 0 0 0 0 0 0 "p" 1 (by simp [blankTrip])).mpr
    (by decide)

/-- Claim C3 counterexample: the trip id resolves to exactly one stored
row whose status is `closed` — not `open` — yet End Trip does not reject
with NotFound: it succeeds and re-closes the row, because the submit
handler only checks that the id resolves to exactly one row. -/
theorem C3_counterexample :
    ([tClosedC3].filter fun r => tripIdMatches tClosedC3 r).length = 1 ∧
    tClosedC3.status = some "closed" ∧
    endTrip [tClosedC3] tClosedC3 true 5 0 0 0 0 0 0 "p" 3 =
      .ok [closeTripRecord tClosedC3 5 0 0 0 0 0 0 "p" 3 (round2 (5 - (0 : ℚ)))] :=
  ⟨by decide, rfl, rfl⟩

/-- Claim C10 (implicit): when the located trip's start odometer cell is
missing, End Trip substitutes 0 for it — the InvalidOdometer check
compares against 0 and passes for any non-negative end odometer — the
stored distance is `round(endOdometer − 0, 2)`, and the stored row's
StartMileage cell is left exactly as it was (so it stays null). -/
theorem C10_null_start_mileage :
    ∀ (trips : List Trip) (t : Trip) (endM a1 a2 a3 a4 a5 a6 : ℚ)
      (photoRef : String) (now : Nat),
      t.startMileage = none → 0 ≤ endM →
      (trips.filter fun r => tripIdMatches t r).length = 1 →
      ∃ trips', endTrip trips t true endM a1 a2 a3 a4 a5 a6 photoRef now = .ok trips' ∧
        ∀ (i : Nat) (r : Trip), trips[i]? = some r →
          ∃ r2, trips'[i]? = some r2 ∧
            (tripIdMatches t r = true →
              r2.distanceKM = some (round2 (endM - 0)) ∧ r2.startMileage = r.startMileage) ∧
            (tripIdMatches t r = false → r2 = r) := by
  intro trips t endM a1 a2 a3 a4 a5 a6 photoRef now hs h0 hcount
  simp only [endTrip]
  rw [if_neg (show ¬(true = false) by simp), hs]
  rw [show (none : Option ℚ).getD 0 = 0 from rfl, if_neg (not_lt.mpr h0), if_pos hcount]
  refine ⟨_, rfl, ?_⟩
  intro i r hir
  refine ⟨if tripIdMatches t r then
      closeTripRecord r endM a1 a2 a3 a4 a5 a6 photoRef now (round2 (endM - 0))
    else r, ?_, ?_, ?_⟩
  · rw [List.getElem?_map, hir]
    rfl
  · intro hm
    rw [if_pos hm]
    exact ⟨rfl, rfl⟩
  · intro hm
    rw [if_neg (by simp [hm])]

/-- Claim C10 witness: ending a trip whose start odometer cell is missing
at end odometer 50 succeeds, stores distance `round(50 − 0, 2)`, and
leaves the StartMileage cell untouched. -/
theorem C10_witness :
    ∃ trips', endTrip [tOpenNull] tOpenNull true 50 0 0 0 0 0 0 "p" 9 = .ok trips' ∧
      ∀ (i : Nat) (r : Trip), ([tOpenNull] : List Trip)[i]? = some r →
        ∃ r2, trips'[i]? = some r2 ∧
          (tripIdMatches tOpenNull r = true →
            r2.distanceKM = some (round2 (50 - 0)) ∧ r2.startMileage = r.startMileage) ∧
          (tripIdMatches tOpenNull r = false → r2 = r) :=
  C10_null_start_mileage [tOpenNull] tOpenNull 50 0 0 0 0 0 0 "p" 9 rfl (by norm_num)
    (by decide)

/-- Claim C4: in every ledger state reachable from the empty ledger by
serially executed mutating operations, the (whitespace-trimmed,
case-sensitive) gate-pass numbers of the stored trips are pairwise
distinct; and Start Trip rejects with DuplicateGatePass whenever the
trimmed gate-pass number already occurs among the stored trips (open or
closed). -/
theorem C4_gate_pass_unique :
    (∀ s : LedgerState, Reachable s →
      s.1.Pairwise fun a b =>
        pyStrip (a.gatePassNumber.getD "") ≠ pyStrip (b.gatePassNumber.getD "")) ∧
    (∀ (trips : List Trip) (inp : StartInput) (now : Nat),
      pyStrip inp.vehicleReg ≠ "" → pyStrip inp.driver ≠ "" →
      pyStrip inp.gatePassNumber ≠ "" → inp.startPhoto = true →
      pyStrip inp.gatePassNumber ∈ (trips.map fun t => pyStrip (t.gatePassNumber.getD "")) →
      startTrip trips inp now = .error .duplicateGatePass) := by
  constructor
  · exact fun s h =>
      reachable_induction List.Pairwise.nil (fun s1 s2 hI hst => step_preserves_gate hst hI) s h
  · intro trips inp now hv hd hg hp hmem
    unfold startTrip
    rw [if_neg hv, if_neg hd, if_neg hg, if_neg (by simp [hp]), if_pos ⟨hmem, hg⟩]

/-- Claim C4 witness: the empty state trivially satisfies the invariant,
and reusing the stored gate pass "G" is rejected with DuplicateGatePass
(Scenario 5). -/
theorem C4_witness :
    (([] : List Trip).Pairwise fun a b =>
      pyStrip (a.gatePassNumber.getD "") ≠ pyStrip (b.gatePassNumber.getD "")) ∧
    startTrip [{ blankTrip with gatePassNumber := some "G" }] inpStartW 5 =
      .error .duplicateGatePass :=
  ⟨C4_gate_pass_unique.1 ([], []) Relation.ReflTransGen.refl,
   C4_gate_pass_unique.2 [{ blankTrip with gatePassNumber := some "G" }] inpStartW 5
     (by decide) (by decide) (by decide) rfl (by decide)⟩

/-- Claim C5: in every ledger state reachable from the empty ledger by
serially executed mutating operations, at most one trip with status
`open` exists for each (driver, vehicle) pair; Start Trip rejects with
OpenTripExists whenever `FindOpenTrip(driver, vehicle)` returns a record,
and no other operation creates an open trip (End Trip only turns a row
`closed`, Log Refuel never writes the trip ledger). -/
theorem C5_single_open_trip :
    (∀ s : LedgerState, Reachable s → ∀ d v : String,
      (s.1.countP fun tr =>
        decide (tr.driver = some d) && decide (tr.status = some "open") &&
          decide (tr.vehicleReg = some v)) ≤ 1) ∧
    (∀ (trips : List Trip) (inp : StartInput) (now : Nat),
      pyStrip inp.vehicleReg ≠ "" → pyStrip inp.driver ≠ "" →
      pyStrip inp.gatePassNumber ≠ "" → inp.startPhoto = true →
      pyStrip inp.gatePassNumber ∉ (trips.map fun t => pyStrip (t.gatePassNumber.getD "")) →
      (get_open_trip_for_driver trips (pyStrip inp.driver) (pyStrip inp.vehicleReg)).isSome = true →
      startTrip trips inp now = .error .openTripExists) := by
  constructor
  · exact fun s h =>
      reachable_induction (fun d v => by simp)
        (fun s1 s2 hI hst => step_preserves_open hst hI) s h
  · intro trips inp now hv hd hg hp hnotmem hopen
    unfold startTrip
    rw [if_neg hv, if_neg hd, if_neg hg, if_neg (by simp [hp]),
      if_neg (fun hc => hnotmem hc.1), if_pos hopen]

/-- Claim C5 witness: the empty state satisfies the bound, and starting a
second trip for the pair ("A", "V") while one is open is rejected with
OpenTripExists (Scenario 4). -/
theorem C5_witness :
    (∀ d v : String,
      (([] : List Trip).countP fun tr =>
        decide (tr.driver = some d) && decide (tr.status = some "open") &&
          decide (tr.vehicleReg = some v)) ≤ 1) ∧
    startTrip [{ blankTrip with driver := some "A", vehicleReg := some "V", status := some "open" }]
        inpStartW 5 = .error .openTripExists :=
  ⟨C5_single_open_trip.1 ([], []) Relation.ReflTransGen.refl,
   C5_single_open_trip.2
     [{ blankTrip with driver := some "A", vehicleReg := some "V", status := some "open" }]
     inpStartW 5 (by decide) (by decide) (by decide) rfl (by decide) (by decide)⟩

/-- Claim C6: Start Trip rejects — returning an error and writing neither
ledger — whenever the (stripped) vehicle registration, driver name, or
gate-pass number is empty, or the start photo is absent; and a successful
submission passes every validation and appends exactly one new trip in
`open` status with null end timestamp, end odometer, end photo, distance,
and allowance cells. -/
theorem C6_start_trip_validation :
    ∀ (trips : List Trip) (inp : StartInput) (now : Nat),
      ((pyStrip inp.vehicleReg = "" ∨ pyStrip inp.driver = "" ∨
        pyStrip inp.gatePassNumber = "" ∨ inp.startPhoto = false) →
        ∃ er, startTrip trips inp now = .error er) ∧
      (∀ trips', startTrip trips inp now = .ok trips' →
        (pyStrip inp.vehicleReg ≠ "" ∧ pyStrip inp.driver ≠ "" ∧
          pyStrip inp.gatePassNumber ≠ "" ∧ inp.startPhoto = true ∧
          pyStrip inp.gatePassNumber ∉ (trips.map fun t => pyStrip (t.gatePassNumber.getD "")) ∧
          get_open_trip_for_driver trips (pyStrip inp.driver) (pyStrip inp.vehicleReg) = none) ∧
        trips' = trips ++ [startTripRecord inp now] ∧
        (startTripRecord inp now).status = some "open" ∧
        (startTripRecord inp now).endDateTime = none ∧
        (startTripRecord inp now).endMileage = none ∧
        (startTripRecord inp now).endMileagePhoto = none ∧
        (startTripRecord inp now).distanceKM = none ∧
        (startTripRecord inp now).dailyAllowance = none ∧
        (startTripRecord inp now).offloadingPay = none ∧
        (startTripRecord inp now).loaderAllowance = none ∧
        (startTripRecord inp now).securityFee = none ∧
        (startTripRecord inp now).parkingFee = none ∧
        (startTripRecord inp now).nightOutAllowance = none) := by
  intro trips inp now
  constructor
  · intro hbad
    cases hres : startTrip trips inp now with
    | error er => exact ⟨er, rfl⟩
    | ok tr =>
      obtain ⟨-, hv, hd, hg, hp, -, -⟩ := startTrip_ok_elim hres
      rcases hbad with hb | hb | hb | hb
      · exact absurd hb hv
      · exact absurd hb hd
      · exact absurd hb hg
      · rw [hp] at hb
        exact Bool.noConfusion hb
  · intro trips' h
    obtain ⟨rfl, hv, hd, hg, hp, hmem, hnone⟩ := startTrip_ok_elim h
    exact ⟨⟨hv, hd, hg, hp, hmem, hnone⟩, rfl, rfl, rfl, rfl, rfl, rfl, rfl, rfl, rfl, rfl, rfl, rfl⟩

/-- Claim C6 witness: a whitespace-only driver name is rejected, and the
valid submission `inpStartW` appends one open trip with null end fields
(Scenario 1). -/
theorem C6_witness :
    (∃ er, startTrip [] inpStartBad 0 = .error er) ∧
    ((pyStrip inpStartW.vehicleReg ≠ "" ∧ pyStrip inpStartW.driver ≠ "" ∧
        pyStrip inpStartW.gatePassNumber ≠ "" ∧ inpStartW.startPhoto = true ∧
        pyStrip inpStartW.gatePassNumber ∉
          (([] : List Trip).map fun t => pyStrip (t.gatePassNumber.getD "")) ∧
        get_open_trip_for_driver [] (pyStrip inpStartW.driver) (pyStrip inpStartW.vehicleReg) = none) ∧
      ([] ++ [startTripRecord inpStartW 0] : List Trip) = [] ++ [startTripRecord inpStartW 0] ∧
      (startTripRecord inpStartW 0).status = some "open" ∧
      (startTripRecord inpStartW 0).endDateTime = none ∧
      (startTripRecord inpStartW 0).endMileage = none ∧
      (startTripRecord inpStartW 0).endMileagePhoto = none ∧
      (startTripRecord inpStartW 0).distanceKM = none ∧
      (startTripRecord inpStartW 0).dailyAllowance = none ∧
      (startTripRecord inpStartW 0).offloadingPay = none ∧
      (startTripRecord inpStartW 0).loaderAllowance = none ∧
      (startTripRecord inpStartW 0).securityFee = none ∧
      (startTripRecord inpStartW 0).parkingFee = none ∧
      (startTripRecord inpStartW 0).nightOutAllowance = none) :=
  ⟨(C6_start_trip_validation [] inpStartBad 0).1 (Or.inr (Or.inl (by decide))),
   (C6_start_trip_validation [] inpStartW 0).2 ([] ++ [startTripRecord inpStartW 0]) rfl⟩

end FleetApp
